import Mathlib

/-!
Shallow embedding of the aggregation core of the rc-DACFOI repository
(`src/app/services/aggregator/data_aggregator.py`).

The three collaborators (scraper service, NIH RePORTER service, embedding
service) are abstract in the aggregator: they are injected through the
constructor.  We model them as functions returning `Except ε _`, where `ε`
is the type of collaborator-raised exceptions; Python exception propagation
becomes `Except` short-circuiting.  Python dicts preserve insertion order,
so the department→rows mapping is an association list.
-/

namespace DACFOI

/-- A raw profile row produced by the scraping collaborator, a namedtuple
with the column names the aggregator accesses. -/
structure ProfileRow where
  Faculty_Name : String
  School : String
  Department : String
  About_Section : String
  Email_Address : String
  Profile_URL : String
deriving Repr, DecidableEq

/-- A raw project metadata row produced by the NIH RePORTER collaborator. -/
structure ProjectRow where
  project_number : String
  abstract_text : String
  terms : List String
  start_date : String
  end_date : String
  agency_ic_admin : String
  activity_code : String
deriving Repr, DecidableEq

/-- The `Project` model object built by `convert_to_project_model`. -/
structure Project where
  project_number : String
  abstract : String
  relevant_terms : List String
  start_date : String
  end_date : String
  agency_ic_admin : String
  activity_code : String
deriving Repr, DecidableEq

/-- The `Faculty` model object built by `convert_to_faculty_model`.
`embedding_id` is an integer handle; `-1` is the not-yet-computed
sentinel used at construction time. -/
structure Faculty where
  name : String
  school : String
  department : String
  about : String
  email : String
  profile_url : String
  projects : List Project
  embedding_id : Int
deriving Repr, DecidableEq

/-- The three injected collaborators of `DataAggregator.__init__`:
`scraper_service.get_school_faculty_data`,
`nih_service.compile_project_metadata`, and
`embedding_service.generate_and_store_embedding`.  Each may raise, hence
`Except ε`. -/
structure Collaborators (ε : Type) where
  get_school_faculty_data : String → Except ε (List (String × List ProfileRow))
  compile_project_metadata : String → String → Except ε (List ProjectRow)
  generate_and_store_embedding : Faculty → List Project → Except ε Int

/-- Python's `s.split(" ")` on the underlying character list: split on every
single space, keeping empty pieces (so `"".split(" ") == [""]` and
`"a  b".split(" ") == ["a", "", "b"]`).  The result is never the empty
list. -/
def splitOnSpaceChars : List Char → List (List Char)
  | [] => [[]]
  | c :: cs =>
    let rest := splitOnSpaceChars cs
    if c = ' ' then [] :: rest
    else
      match rest with
      | [] => [[c]]
      | t :: ts => (c :: t) :: ts

/-- Python's `s.split(" ")` for strings. -/
def pySplitSpace (s : String) : List String :=
  (splitOnSpaceChars s.data).map fun l => String.mk l

/-- `DataAggregator.extract_faculty_names_from_profile`: split the
`Faculty_Name` field on spaces and return `(names[0], names[-1])`.
The split list is never empty, so the `headD`/`getLastD` defaults are
never used (see `pySplitSpace_ne_nil`). -/
def extract_faculty_names_from_profile (faculty_profile : ProfileRow) :
    String × String :=
  let names := pySplitSpace faculty_profile.Faculty_Name
  (names.headD "", names.getLastD "")

/-- `DataAggregator.convert_to_project_model`: pure field renaming from a
raw metadata row to a `Project`. -/
def convert_to_project_model (project : ProjectRow) : Project :=
  { project_number := project.project_number
    abstract := project.abstract_text
    relevant_terms := project.terms
    start_date := project.start_date
    end_date := project.end_date
    agency_ic_admin := project.agency_ic_admin
    activity_code := project.activity_code }

/-- `DataAggregator.convert_to_faculty_model`: build a `Faculty` from a
profile row and its project list, with `embedding_id` initialised to the
sentinel `-1`. -/
def convert_to_faculty_model (faculty_profile : ProfileRow)
    (projects : List Project) : Faculty :=
  { name := faculty_profile.Faculty_Name
    school := faculty_profile.School
    department := faculty_profile.Department
    about := faculty_profile.About_Section
    email := faculty_profile.Email_Address
    profile_url := faculty_profile.Profile_URL
    projects := projects
    embedding_id := -1 }

/-- `DataAggregator.get_faculty_member_projects`: call the NIH collaborator
and convert each returned row with `convert_to_project_model`, preserving
order; a collaborator failure propagates. -/
def get_faculty_member_projects {ε : Type} (C : Collaborators ε)
    (pi_first_name pi_last_name : String) : Except ε (List Project) :=
  match C.compile_project_metadata pi_first_name pi_last_name with
  | Except.error e => Except.error e
  | Except.ok projects_df =>
      Except.ok (projects_df.map convert_to_project_model)

/-- The body of the inner loop of `aggregate_school_faculty_data` for one
profile row: extract names, fetch projects, build the `Faculty` model,
request an embedding handle and overwrite `embedding_id` with it.  Any
collaborator failure propagates. -/
def process_row {ε : Type} (C : Collaborators ε) (faculty_profile : ProfileRow) :
    Except ε Faculty :=
  let names := extract_faculty_names_from_profile faculty_profile
  match get_faculty_member_projects C names.1 names.2 with
  | Except.error e => Except.error e
  | Except.ok projects =>
      let faculty := convert_to_faculty_model faculty_profile projects
      match C.generate_and_store_embedding faculty projects with
      | Except.error e => Except.error e
      | Except.ok embedding_id =>
          Except.ok { faculty with embedding_id := embedding_id }

/-- The inner loop of `aggregate_school_faculty_data` over one department's
rows, in encounter order, appending each processed record. -/
def process_rows {ε : Type} (C : Collaborators ε) :
    List ProfileRow → Except ε (List Faculty)
  | [] => Except.ok []
  | row :: rest =>
    match process_row C row with
    | Except.error e => Except.error e
    | Except.ok f =>
      match process_rows C rest with
      | Except.error e => Except.error e
      | Except.ok fs => Except.ok (f :: fs)

/-- The outer loop of `aggregate_school_faculty_data` over the
department→rows mapping, in iteration order. -/
def aggregate_depts {ε : Type} (C : Collaborators ε) :
    List (String × List ProfileRow) → Except ε (List (String × List Faculty))
  | [] => Except.ok []
  | (dept, rows) :: rest =>
    match process_rows C rows with
    | Except.error e => Except.error e
    | Except.ok fs =>
      match aggregate_depts C rest with
      | Except.error e => Except.error e
      | Except.ok r => Except.ok ((dept, fs) :: r)

/-- `DataAggregator.aggregate_school_faculty_data`: ask the scraping
collaborator for the department→rows mapping and run the per-row pipeline
over it; any failure anywhere propagates and no partial mapping is
returned. -/
def aggregate_school_faculty_data {ε : Type} (C : Collaborators ε)
    (school : String) : Except ε (List (String × List Faculty)) :=
  match C.get_school_faculty_data school with
  | Except.error e => Except.error e
  | Except.ok school_faculty_df => aggregate_depts C school_faculty_df

/-! ### Concrete fixtures used to witness the theorems below -/

/-- A concrete profile row. -/
def row0 : ProfileRow :=
  { Faculty_Name := "Jane Doe", School := "SEAS",
    Department := "Biomedical Engineering", About_Section := "about",
    Email_Address := "jdoe@virginia.edu", Profile_URL := "https://x" }

/-- A concrete project metadata row. -/
def prow0 : ProjectRow :=
  { project_number := "5R01CA000000", abstract_text := "an abstract",
    terms := ["cancer", "imaging"], start_date := "2020-01-01",
    end_date := "2021-01-01", agency_ic_admin := "NCI", activity_code := "R01" }

/-- The `Project` record built from `prow0`. -/
def proj0 : Project :=
  { project_number := "5R01CA000000", abstract := "an abstract",
    relevant_terms := ["cancer", "imaging"], start_date := "2020-01-01",
    end_date := "2021-01-01", agency_ic_admin := "NCI", activity_code := "R01" }

/-- The `Faculty` record produced for `row0` by a run in which the metadata
collaborator returns `[prow0]` and the embedding collaborator returns the
handle `42`. -/
def fac0 : Faculty :=
  { name := "Jane Doe", school := "SEAS",
    department := "Biomedical Engineering", about := "about",
    email := "jdoe@virginia.edu", profile_url := "https://x",
    projects := [proj0], embedding_id := 42 }

/-- Well-behaved concrete collaborators: one department with one row, one
project row per lookup, embedding handle `42`. -/
def CW : Collaborators String :=
  { get_school_faculty_data :=
      fun _ => Except.ok [("Biomedical Engineering", [row0])]
    compile_project_metadata := fun _ _ => Except.ok [prow0]
    generate_and_store_embedding := fun _ _ => Except.ok 42 }

/-- Collaborators whose metadata lookup returns no rows. -/
def CE : Collaborators String :=
  { get_school_faculty_data :=
      fun _ => Except.ok [("Biomedical Engineering", [row0])]
    compile_project_metadata := fun _ _ => Except.ok []
    generate_and_store_embedding := fun _ _ => Except.ok 42 }

/-- Collaborators whose metadata lookup returns the same row twice, to
exhibit that duplicates are preserved. -/
def CD : Collaborators String :=
  { get_school_faculty_data :=
      fun _ => Except.ok [("Biomedical Engineering", [row0])]
    compile_project_metadata := fun _ _ => Except.ok [prow0, prow0]
    generate_and_store_embedding := fun _ _ => Except.ok 42 }

/-- Collaborators whose metadata lookup always fails. -/
def CF : Collaborators String :=
  { get_school_faculty_data :=
      fun _ => Except.ok [("Biomedical Engineering", [row0])]
    compile_project_metadata := fun _ _ => Except.error "NIH RePORTER down"
    generate_and_store_embedding := fun _ _ => Except.ok 42 }

/-! ### Basic facts about the embedded definitions -/

/-- Python's `split(" ")` never returns an empty list. -/
theorem splitOnSpaceChars_ne_nil (l : List Char) : splitOnSpaceChars l ≠ [] := by
  induction l with
  | nil => simp [splitOnSpaceChars]
  | cons c cs ih =>
    simp only [splitOnSpaceChars]
    split
    · simp
    · cases h : splitOnSpaceChars cs with
      | nil => simp
      | cons t ts => simp [h]

/-- `pySplitSpace` never returns an empty list, so `names[0]` and
`names[-1]` in the name extractor never fail. -/
theorem pySplitSpace_ne_nil (s : String) : pySplitSpace s ≠ [] := by
  simp [pySplitSpace, splitOnSpaceChars_ne_nil]

/-- Splitting a character list containing no space gives back the whole
list as the single piece. -/
theorem splitOnSpaceChars_no_space (l : List Char) (h : ' ' ∉ l) :
    splitOnSpaceChars l = [l] := by
  induction l with
  | nil => rfl
  | cons c cs ih =>
    simp only [List.mem_cons, not_or] at h
    simp only [splitOnSpaceChars]
    rw [if_neg (fun hc => h.1 hc.symm)]
    rw [ih h.2]

/-- A successful `process_rows` pairs every input row, in order, with the
successfully processed record it produced. -/
theorem process_rows_ok {ε : Type} (C : Collaborators ε) (rows : List ProfileRow)
    (fs : List Faculty) (h : process_rows C rows = Except.ok fs) :
    List.Forall₂ (fun row f => process_row C row = Except.ok f) rows fs := by
  induction rows generalizing fs with
  | nil =>
    simp only [process_rows, Except.ok.injEq] at h
    subst h; exact List.Forall₂.nil
  | cons row rest ih =>
    simp only [process_rows] at h
    cases h1 : process_row C row with
    | error e => rw [h1] at h; exact absurd h (by simp)
    | ok f =>
      rw [h1] at h
      cases h2 : process_rows C rest with
      | error e => rw [h2] at h; exact absurd h (by simp)
      | ok fs2 =>
        rw [h2] at h
        simp only [Except.ok.injEq] at h
        subst h
        exact List.Forall₂.cons h1 (ih fs2 h2)

/-- A successful `aggregate_depts` pairs every department entry of the
scraped mapping, in order, with an output entry carrying the same
department key and the row-wise processed records. -/
theorem aggregate_depts_ok {ε : Type} (C : Collaborators ε)
    (dfs : List (String × List ProfileRow)) (res : List (String × List Faculty))
    (h : aggregate_depts C dfs = Except.ok res) :
    List.Forall₂ (fun df r => df.1 = r.1 ∧
      List.Forall₂ (fun row f => process_row C row = Except.ok f) df.2 r.2)
      dfs res := by
  induction dfs generalizing res with
  | nil =>
    simp only [aggregate_depts, Except.ok.injEq] at h
    subst h; exact List.Forall₂.nil
  | cons df rest ih =>
    obtain ⟨dept, rows⟩ := df
    simp only [aggregate_depts] at h
    cases h1 : process_rows C rows with
    | error e => rw [h1] at h; exact absurd h (by simp)
    | ok fs =>
      rw [h1] at h
      cases h2 : aggregate_depts C rest with
      | error e => rw [h2] at h; exact absurd h (by simp)
      | ok r =>
        rw [h2] at h
        simp only [Except.ok.injEq] at h
        subst h
        exact List.Forall₂.cons ⟨rfl, process_rows_ok C rows fs h1⟩ (ih r h2)

/-- Anatomy of a successfully processed row: the metadata collaborator
returned some rows for the extracted name pair, the embedding collaborator
returned some handle for the constructed model, and the output record is
exactly that constructed model with only `embedding_id` overwritten by the
handle. -/
theorem process_row_ok {ε : Type} (C : Collaborators ε) (p : ProfileRow)
    (f : Faculty) (h : process_row C p = Except.ok f) :
    ∃ rows handle,
      C.compile_project_metadata
          (extract_faculty_names_from_profile p).1
          (extract_faculty_names_from_profile p).2 = Except.ok rows ∧
      C.generate_and_store_embedding
          (convert_to_faculty_model p (rows.map convert_to_project_model))
          (rows.map convert_to_project_model) = Except.ok handle ∧
      f = { convert_to_faculty_model p (rows.map convert_to_project_model) with
              embedding_id := handle } := by
  cases h1 : C.compile_project_metadata
      (extract_faculty_names_from_profile p).1
      (extract_faculty_names_from_profile p).2 with
  | error e =>
    have hg : get_faculty_member_projects C
        (extract_faculty_names_from_profile p).1
        (extract_faculty_names_from_profile p).2 = Except.error e := by
      simp [get_faculty_member_projects, h1]
    simp only [process_row, hg] at h
    exact absurd h (by simp)
  | ok rows =>
    have hg : get_faculty_member_projects C
        (extract_faculty_names_from_profile p).1
        (extract_faculty_names_from_profile p).2
        = Except.ok (rows.map convert_to_project_model) := by
      simp [get_faculty_member_projects, h1]
    simp only [process_row, hg] at h
    cases h2 : C.generate_and_store_embedding
        (convert_to_faculty_model p (rows.map convert_to_project_model))
        (rows.map convert_to_project_model) with
    | error e => rw [h2] at h; exact absurd h (by simp)
    | ok handle =>
      rw [h2] at h
      simp only [Except.ok.injEq] at h
      exact ⟨rows, handle, rfl, h2, h.symm⟩

/-- If any row of the list fails to process, the whole `process_rows` loop
fails with some error. -/
theorem process_rows_error_of_mem {ε : Type} (C : Collaborators ε)
    (rows : List ProfileRow) (row : ProfileRow) (e : ε)
    (hmem : row ∈ rows) (hfail : process_row C row = Except.error e) :
    ∃ e1, process_rows C rows = Except.error e1 := by
  induction rows with
  | nil => cases hmem
  | cons r rest ih =>
    simp only [process_rows]
    cases h1 : process_row C r with
    | error e2 => exact ⟨e2, rfl⟩
    | ok f =>
      rcases List.mem_cons.mp hmem with rfl | hmem2
      · rw [h1] at hfail; cases hfail
      · obtain ⟨e1, he1⟩ := ih hmem2
        rw [he1]
        exact ⟨e1, rfl⟩

/-- If any department's rows fail to process, the whole department loop
fails with some error. -/
theorem aggregate_depts_error_of_mem {ε : Type} (C : Collaborators ε)
    (dfs : List (String × List ProfileRow)) (dept : String)
    (rows : List ProfileRow) (e : ε)
    (hmem : (dept, rows) ∈ dfs) (hfail : process_rows C rows = Except.error e) :
    ∃ e1, aggregate_depts C dfs = Except.error e1 := by
  induction dfs with
  | nil => cases hmem
  | cons df rest ih =>
    obtain ⟨d, rs⟩ := df
    simp only [aggregate_depts]
    cases h1 : process_rows C rs with
    | error e2 => exact ⟨e2, rfl⟩
    | ok fs =>
      rcases List.mem_cons.mp hmem with heq | hmem2
      · obtain ⟨rfl, rfl⟩ := Prod.mk.injEq .. ▸ heq
        · rw [h1] at hfail; cases hfail
      · obtain ⟨e1, he1⟩ := ih hmem2
        rw [he1]
        exact ⟨e1, rfl⟩

/-- Every member of the right list of a `Forall₂` is related to some member
of the left list. -/
theorem forall₂_mem_right {α β : Type} {R : α → β → Prop} {l1 : List α}
    {l2 : List β} (h : List.Forall₂ R l1 l2) {b : β} (hb : b ∈ l2) :
    ∃ a ∈ l1, R a b := by
  induction h with
  | nil => cases hb
  | cons h1 h2 ih =>
    rcases List.mem_cons.mp hb with rfl | hb2
    · exact ⟨_, List.mem_cons_self _ _, h1⟩
    · obtain ⟨a, ha, hr⟩ := ih hb2
      exact ⟨a, List.mem_cons_of_mem _ ha, hr⟩

/-- On a nonempty list, `getLastD` agrees with `getLast`. -/
theorem getLastD_cons_eq_getLast {α : Type} (t : α) (ts : List α) (d : α) :
    ((t :: ts).getLastD d) = (t :: ts).getLast (List.cons_ne_nil t ts) := by
  induction ts generalizing t with
  | nil => rfl
  | cons a l ih =>
    rw [List.getLastD_cons, List.getLast_cons (List.cons_ne_nil a l)]
    exact ih a

/-! ### Claim theorems -/

/-- Claim C1: for every school, if the scraping collaborator returns a mapping
with some department keys, the mapping returned by
`aggregate_school_faculty_data` (when it succeeds) has exactly those
department keys, in order — no filtering, renaming, or deduplication. -/
theorem aggregate_preserves_department_keys {ε : Type} (C : Collaborators ε)
    (school : String) (dfs : List (String × List ProfileRow))
    (res : List (String × List Faculty))
    (hscrape : C.get_school_faculty_data school = Except.ok dfs)
    (hagg : aggregate_school_faculty_data C school = Except.ok res) :
    res.map Prod.fst = dfs.map Prod.fst := by
  simp only [aggregate_school_faculty_data, hscrape] at hagg
  have h := aggregate_depts_ok C dfs res hagg
  clear hagg hscrape
  induction h with
  | nil => rfl
  | cons h1 h2 ih => simp [ih, h1.1]

/-- Witness for C1 at concrete collaborators. -/
theorem aggregate_preserves_department_keys_witness :
    ([("Biomedical Engineering", [fac0])] : List (String × List Faculty)).map
        Prod.fst
      = ([("Biomedical Engineering", [row0])] :
          List (String × List ProfileRow)).map Prod.fst :=
  aggregate_preserves_department_keys CW "SEAS" _ _ rfl rfl

/-- Claim C2: in every successful aggregate result, each department's value
contains exactly one `Faculty` record per raw profile row the scraping
collaborator supplied for that department, in encounter order: the scraped
mapping and the result are related entry by entry, and within each entry
row by row, each output record being the successful processing of its
row. -/
theorem aggregate_rowwise_correspondence {ε : Type} (C : Collaborators ε)
    (school : String) (dfs : List (String × List ProfileRow))
    (res : List (String × List Faculty))
    (hscrape : C.get_school_faculty_data school = Except.ok dfs)
    (hagg : aggregate_school_faculty_data C school = Except.ok res) :
    List.Forall₂ (fun df r => df.1 = r.1 ∧
      List.Forall₂ (fun row f => process_row C row = Except.ok f) df.2 r.2)
      dfs res := by
  simp only [aggregate_school_faculty_data, hscrape] at hagg
  exact aggregate_depts_ok C dfs res hagg

/-- Witness for C2 at concrete collaborators. -/
theorem aggregate_rowwise_correspondence_witness :
    List.Forall₂ (fun df r => df.1 = r.1 ∧
      List.Forall₂ (fun row f => process_row CW row = Except.ok f) df.2 r.2)
      [("Biomedical Engineering", [row0])] [("Biomedical Engineering", [fac0])] :=
  aggregate_rowwise_correspondence CW "SEAS" _ _ rfl rfl

/-- Claim C3: provided the embedding collaborator never hands back the sentinel
`-1` itself (spec-modelled: the embedding service is out of scope and its
handles are opaque), every `Faculty` record in a successful aggregate
result has `embedding_id ≠ -1`, and its `embedding_id` is exactly a handle
the embedding collaborator returned. -/
theorem aggregate_embedding_id_not_sentinel {ε : Type} (C : Collaborators ε)
    (school : String) (res : List (String × List Faculty)) (dept : String)
    (fs : List Faculty) (f : Faculty)
    (hhandle : ∀ f0 ps h, C.generate_and_store_embedding f0 ps = Except.ok h →
      h ≠ -1)
    (hagg : aggregate_school_faculty_data C school = Except.ok res)
    (hdf : (dept, fs) ∈ res) (hf : f ∈ fs) :
    f.embedding_id ≠ -1 ∧
    ∃ f0 ps handle, C.generate_and_store_embedding f0 ps = Except.ok handle ∧
      f.embedding_id = handle := by
  cases hs : C.get_school_faculty_data school with
  | error e =>
    simp only [aggregate_school_faculty_data, hs] at hagg
    cases hagg
  | ok dfs =>
    simp only [aggregate_school_faculty_data, hs] at hagg
    have hall := aggregate_depts_ok C dfs res hagg
    obtain ⟨df, hdfmem, hR⟩ := forall₂_mem_right hall hdf
    obtain ⟨row, hrowmem, hrow⟩ := forall₂_mem_right hR.2 hf
    obtain ⟨rows, handle, hm, he, hfeq⟩ := process_row_ok C row f hrow
    subst hfeq
    exact ⟨hhandle _ _ _ he, _, _, handle, he, rfl⟩

/-- Witness for C3 at concrete collaborators. -/
theorem aggregate_embedding_id_not_sentinel_witness :
    fac0.embedding_id ≠ -1 ∧
    ∃ f0 ps handle,
      CW.generate_and_store_embedding f0 ps = Except.ok handle ∧
      fac0.embedding_id = handle :=
  aggregate_embedding_id_not_sentinel CW "SEAS"
    [("Biomedical Engineering", [fac0])] "Biomedical Engineering" [fac0] fac0
    (by intro f0 ps h hh
        simp only [CW, Except.ok.injEq] at hh
        omega)
    rfl (by simp) (by simp)

/-- Claim C4: when the metadata collaborator returns rows,
`get_faculty_member_projects` returns exactly one `Project` per row, in
the same order, duplicates preserved (it is a `List.map`), and
`convert_to_project_model` is a pure field renaming: `abstract` receives
`abstract_text`, `relevant_terms` receives `terms`, and the remaining
fields are copied verbatim. -/
theorem get_faculty_member_projects_spec {ε : Type} (C : Collaborators ε)
    (fn ln : String) (rows : List ProjectRow)
    (h : C.compile_project_metadata fn ln = Except.ok rows) :
    get_faculty_member_projects C fn ln =
      Except.ok (rows.map convert_to_project_model) ∧
    ∀ r : ProjectRow, convert_to_project_model r =
      { project_number := r.project_number, abstract := r.abstract_text,
        relevant_terms := r.terms, start_date := r.start_date,
        end_date := r.end_date, agency_ic_admin := r.agency_ic_admin,
        activity_code := r.activity_code } :=
  ⟨by simp [get_faculty_member_projects, h], fun r => rfl⟩

/-- Witness for C4 at concrete collaborators returning a duplicate row. -/
theorem get_faculty_member_projects_spec_witness :
    get_faculty_member_projects CD "Jane" "Doe" =
      Except.ok ([prow0, prow0].map convert_to_project_model) ∧
    ∀ r : ProjectRow, convert_to_project_model r =
      { project_number := r.project_number, abstract := r.abstract_text,
        relevant_terms := r.terms, start_date := r.start_date,
        end_date := r.end_date, agency_ic_admin := r.agency_ic_admin,
        activity_code := r.activity_code } :=
  get_faculty_member_projects_spec CD "Jane" "Doe" [prow0, prow0] rfl

/-- Claim C5: if the metadata lookup for a row's extracted names returns zero
project rows, the `Faculty` record produced for that row carries the
empty project list. -/
theorem empty_lookup_gives_empty_projects {ε : Type} (C : Collaborators ε)
    (p : ProfileRow) (f : Faculty)
    (hnih : C.compile_project_metadata
        (extract_faculty_names_from_profile p).1
        (extract_faculty_names_from_profile p).2 = Except.ok [])
    (h : process_row C p = Except.ok f) :
    f.projects = [] := by
  obtain ⟨rows, handle, h1, h2, h3⟩ := process_row_ok C p f h
  rw [hnih] at h1
  obtain rfl : ([] : List ProjectRow) = rows := by
    injection h1
  subst h3
  rfl

/-- Witness for C5 at concrete collaborators with an empty lookup. -/
theorem empty_lookup_gives_empty_projects_witness :
    ({ name := "Jane Doe", school := "SEAS",
       department := "Biomedical Engineering", about := "about",
       email := "jdoe@virginia.edu", profile_url := "https://x",
       projects := [], embedding_id := 42 } : Faculty).projects = [] :=
  empty_lookup_gives_empty_projects CE row0 _ rfl rfl

/-- Claim C6: for every display name whose space-split has two or more tokens,
`extract_faculty_names_from_profile` returns the pair of the first token
and the last token; in particular it maps "First Last" to
("First", "Last"). -/
theorem extract_names_first_last_token (p : ProfileRow) (t1 t2 : String)
    (ts : List String)
    (h : pySplitSpace p.Faculty_Name = t1 :: t2 :: ts) :
    extract_faculty_names_from_profile p =
      (t1, (t2 :: ts).getLast (List.cons_ne_nil t2 ts)) ∧
    extract_faculty_names_from_profile
      { Faculty_Name := "First Last", School := "", Department := "",
        About_Section := "", Email_Address := "", Profile_URL := "" }
      = ("First", "Last") := by
  constructor
  · simp only [extract_faculty_names_from_profile, h, List.headD_cons]
    rw [List.getLastD_cons, getLastD_cons_eq_getLast]
  · rfl

/-- Witness for C6 at the four-token display name "Mary Jane Smith Jr.". -/
theorem extract_names_first_last_token_witness :
    extract_faculty_names_from_profile
      { Faculty_Name := "Mary Jane Smith Jr.", School := "", Department := "",
        About_Section := "", Email_Address := "", Profile_URL := "" }
      = ("Mary", (("Jane" : String) :: ["Smith", "Jr."]).getLast
          (List.cons_ne_nil "Jane" ["Smith", "Jr."])) ∧
    extract_faculty_names_from_profile
      { Faculty_Name := "First Last", School := "", Department := "",
        About_Section := "", Email_Address := "", Profile_URL := "" }
      = ("First", "Last") :=
  extract_names_first_last_token
    { Faculty_Name := "Mary Jane Smith Jr.", School := "", Department := "",
      About_Section := "", Email_Address := "", Profile_URL := "" }
    "Mary" "Jane" ["Smith", "Jr."] rfl

/-- Claim C7: for a non-empty display name containing no space (a single token),
`extract_faculty_names_from_profile` returns that token as both first and
last name, and does not fail. -/
theorem extract_names_single_token (p : ProfileRow)
    (hne : p.Faculty_Name ≠ "") (hns : ' ' ∉ p.Faculty_Name.data) :
    extract_faculty_names_from_profile p =
      (p.Faculty_Name, p.Faculty_Name) := by
  have hsplit : pySplitSpace p.Faculty_Name = [p.Faculty_Name] := by
    simp only [pySplitSpace, splitOnSpaceChars_no_space _ hns, List.map_cons,
      List.map_nil]
  simp [extract_faculty_names_from_profile, hsplit]

/-- Witness for C7 at the single-token display name "Madonna". -/
theorem extract_names_single_token_witness :
    extract_faculty_names_from_profile
      { Faculty_Name := "Madonna", School := "", Department := "",
        About_Section := "", Email_Address := "", Profile_URL := "" }
      = ("Madonna", "Madonna") :=
  extract_names_single_token
    { Faculty_Name := "Madonna", School := "", Department := "",
      About_Section := "", Email_Address := "", Profile_URL := "" }
    (by decide) (by decide)

/-- Claim C8, counterexample: on the empty display name the extractor does not
fail at all — in the source, `"".split(" ")` yields `[""]`, so `names[0]`
and `names[-1]` are both defined and the call returns the pair
`("", "")`; no `NameParsingError` is raised (none exists in the code). -/
theorem extract_names_empty_returns_pair :
    extract_faculty_names_from_profile
      { Faculty_Name := "", School := "", Department := "",
        About_Section := "", Email_Address := "", Profile_URL := "" }
      = ("", "") := rfl

/-- Claim C8, amended: the name extractor is total — for every display-name
string, including the empty one, splitting on spaces yields a non-empty
token list and the extractor returns the pair of its first and last
tokens, never raising. -/
theorem extract_names_never_fails (p : ProfileRow) :
    pySplitSpace p.Faculty_Name ≠ [] ∧
    extract_faculty_names_from_profile p =
      ((pySplitSpace p.Faculty_Name).headD "",
       (pySplitSpace p.Faculty_Name).getLastD "") :=
  ⟨pySplitSpace_ne_nil _, rfl⟩

/-- Claim C9: if the scraping collaborator succeeds but some row of some
department fails to process (any per-row enrichment step errors), then
`aggregate_school_faculty_data` fails as a whole: it returns an error and
no mapping, hence no partial department results, including for departments
already fully processed. -/
theorem aggregate_aborts_on_row_failure {ε : Type} (C : Collaborators ε)
    (school : String) (dfs : List (String × List ProfileRow)) (dept : String)
    (rows : List ProfileRow) (row : ProfileRow) (e : ε)
    (hscrape : C.get_school_faculty_data school = Except.ok dfs)
    (hdept : (dept, rows) ∈ dfs) (hrow : row ∈ rows)
    (hfail : process_row C row = Except.error e) :
    ∃ e1, aggregate_school_faculty_data C school = Except.error e1 := by
  obtain ⟨e2, he2⟩ := process_rows_error_of_mem C rows row e hrow hfail
  obtain ⟨e1, he1⟩ := aggregate_depts_error_of_mem C dfs dept rows e2 hdept he2
  exact ⟨e1, by simp [aggregate_school_faculty_data, hscrape, he1]⟩

/-- Witness for C9 at concrete collaborators whose metadata lookup fails. -/
theorem aggregate_aborts_on_row_failure_witness :
    ∃ e1, aggregate_school_faculty_data CF "SEAS" = Except.error e1 :=
  aggregate_aborts_on_row_failure CF "SEAS"
    [("Biomedical Engineering", [row0])] "Biomedical Engineering" [row0] row0
    "NIH RePORTER down" rfl (by simp) (by simp) rfl

/-- Claim C10: the not-yet-computed sentinel is the concrete integer `-1`:
`convert_to_faculty_model` always constructs a `Faculty` with
`embedding_id = -1`, and every record in a successful aggregate result is
exactly a constructed record with only `embedding_id` overwritten by a
collaborator-returned handle — no other field differs from
construction. -/
theorem faculty_sentinel_single_mutation {ε : Type} (C : Collaborators ε)
    (school : String) (res : List (String × List Faculty)) (p : ProfileRow)
    (ps : List Project) (dept : String) (fs : List Faculty) (f : Faculty)
    (hagg : aggregate_school_faculty_data C school = Except.ok res)
    (hdf : (dept, fs) ∈ res) (hf : f ∈ fs) :
    (convert_to_faculty_model p ps).embedding_id = -1 ∧
    ∃ (p1 : ProfileRow) (rows : List ProjectRow) (handle : Int),
      C.generate_and_store_embedding
          (convert_to_faculty_model p1 (rows.map convert_to_project_model))
          (rows.map convert_to_project_model) = Except.ok handle ∧
      f = { convert_to_faculty_model p1 (rows.map convert_to_project_model) with
              embedding_id := handle } := by
  refine ⟨rfl, ?_⟩
  cases hs : C.get_school_faculty_data school with
  | error e =>
    simp only [aggregate_school_faculty_data, hs] at hagg
    cases hagg
  | ok dfs =>
    simp only [aggregate_school_faculty_data, hs] at hagg
    have hall := aggregate_depts_ok C dfs res hagg
    obtain ⟨df, hdfmem, hR⟩ := forall₂_mem_right hall hdf
    obtain ⟨row, hrowmem, hrow⟩ := forall₂_mem_right hR.2 hf
    obtain ⟨rows, handle, hm, he, hfeq⟩ := process_row_ok C row f hrow
    exact ⟨row, rows, handle, he, hfeq⟩

/-- Witness for C10 at concrete collaborators. -/
theorem faculty_sentinel_single_mutation_witness :
    (convert_to_faculty_model row0 [proj0]).embedding_id = -1 ∧
    ∃ (p1 : ProfileRow) (rows : List ProjectRow) (handle : Int),
      CW.generate_and_store_embedding
          (convert_to_faculty_model p1 (rows.map convert_to_project_model))
          (rows.map convert_to_project_model) = Except.ok handle ∧
      fac0 = { convert_to_faculty_model p1 (rows.map convert_to_project_model)
                 with embedding_id := handle } :=
  faculty_sentinel_single_mutation CW "SEAS"
    [("Biomedical Engineering", [fac0])] row0 [proj0]
    "Biomedical Engineering" [fac0] fac0 rfl (by simp) (by simp)

end DACFOI
